import Mathlib

/-!
Verification of the session / command-dispatch layer of the
`thirtyfour_sync` WebDriver client library (files `src/webdriver.rs` and
`src/extensions/chrome/devtools.rs`), as a shallow embedding.

JSON values stand in for `serde_json::Value`; indexing follows serde_json
semantics (indexing a non-object, or a missing key, yields `null`).
The transport / `Session.execute` choke point is modelled as an executor
function threaded through an explicit fake-transport state, so that call
counts and stored state are observable.
-/

/-- Shallow embedding of `serde_json::Value`. Numbers are modelled as
integers, which covers every value occurring in the code under study. -/
inductive Json where
  | null : Json
  | bool (b : Bool) : Json
  | num (n : Int) : Json
  | str (s : String) : Json
  | arr (elems : List Json) : Json
  | obj (fields : List (String × Json)) : Json

/-- First value bound to `key` in an object's field list, if any. -/
def Json.findField : List (String × Json) → String → Option Json
  | [], _ => none
  | (k, v) :: rest, key => if k = key then some v else Json.findField rest key

/-- Embedding of `serde_json`'s `Value::index` for a string key
(`v["key"]`): on an object, the bound value or `null` when the key is
absent; on any other value, `null`. -/
def Json.index : Json → String → Json
  | .obj fields, key => (Json.findField fields key).getD Json.null
  | _, _ => Json.null

/-- Read a JSON value as a boolean, as serde decoding of a `bool` field. -/
def Json.asBool : Json → Option Bool
  | .bool b => some b
  | _ => none

/-- Read a JSON value as an integer, as serde decoding of an integer field. -/
def Json.asInt : Json → Option Int
  | .num n => some n
  | _ => none

/-- The error taxonomy of the library (spec section 7): transport-level
failure, protocol-reported failure with code and message, and decode
failure. -/
inductive WebDriverError where
  | transportError (msg : String) : WebDriverError
  | protocolError (code : String) (msg : String) : WebDriverError
  | decodeError (msg : String) : WebDriverError
deriving DecidableEq

/-- `WebDriverResult<T>` from the sources. -/
abbrev WebDriverResult (α : Type) := Except WebDriverError α

/-- Modelled from the spec: `NetworkConditions` (section 3) is a value
object with the four fields below; its definition is not among the given
source files (it is re-exported from a sibling crate). -/
structure NetworkConditions where
  offline : Bool
  latency : Int
  download_throughput : Int
  upload_throughput : Int
deriving DecidableEq

/-- Modelled from the spec: serde serialization of `NetworkConditions`
as a JSON object with its four named fields (the field names appear in
the spec's section 8 example). -/
def NetworkConditions.toJson (c : NetworkConditions) : Json :=
  Json.obj
    [("offline", Json.bool c.offline),
     ("latency", Json.num c.latency),
     ("download_throughput", Json.num c.download_throughput),
     ("upload_throughput", Json.num c.upload_throughput)]

/-- Modelled from the spec: `convert_json::<NetworkConditions>`
(`crate::common::connection_common::convert_json`, not among the given
source files) deserializes a JSON value into `NetworkConditions`,
failing with a `DecodeError` when an expected field is missing or has
the wrong shape (spec section 7, DecodeError). -/
def convert_json (v : Json) : WebDriverResult NetworkConditions :=
  match (v.index "offline").asBool with
  | none => .error (.decodeError "failed to decode NetworkConditions")
  | some o =>
  match (v.index "latency").asInt with
  | none => .error (.decodeError "failed to decode NetworkConditions")
  | some l =>
  match (v.index "download_throughput").asInt with
  | none => .error (.decodeError "failed to decode NetworkConditions")
  | some d =>
  match (v.index "upload_throughput").asInt with
  | none => .error (.decodeError "failed to decode NetworkConditions")
  | some u =>
      .ok { offline := o, latency := l,
            download_throughput := d, upload_throughput := u }

/-- The Chrome extension command variants constructed by
`src/extensions/chrome/devtools.rs` (the enum itself lives in the
sibling crate; each variant carries exactly the data the source passes
to it). -/
inductive ChromeCommand where
  | launchApp (app_id : String) : ChromeCommand
  | getNetworkConditions : ChromeCommand
  | setNetworkConditions (conditions : NetworkConditions) : ChromeCommand
  | executeCdpCommand (cmd : String) (cmd_args : Json) : ChromeCommand
  | getSinks : ChromeCommand
  | getIssueMessage : ChromeCommand
  | setSinkToUse (sink_name : String) : ChromeCommand
  | startTabMirroring (sink_name : String) : ChromeCommand
  | stopCasting (sink_name : String) : ChromeCommand

/-- Modelled from the spec: `Session.execute` (section 4.2) is the single
choke point through which every remote operation flows; it is modelled
as an executor function that consumes a command and a fake-transport
state and returns the parsed JSON response (or an error) together with
the successor state. -/
abbrev ChromeExec (σ : Type) := ChromeCommand → σ → WebDriverResult Json × σ

namespace ChromeDevTools

variable {σ : Type}

/-- `ChromeDevTools::cmd`: forwards one command to `Session.execute`. -/
def cmd (exec : ChromeExec σ) (command : ChromeCommand) (s : σ) :
    WebDriverResult Json × σ :=
  exec command s

/-- `ChromeDevTools::launch_app`. -/
def launch_app (exec : ChromeExec σ) (app_id : String) (s : σ) :
    WebDriverResult Unit × σ :=
  match cmd exec (.launchApp app_id) s with
  | (.ok _, s') => (.ok (), s')
  | (.error e, s') => (.error e, s')

/-- `ChromeDevTools::get_network_conditions`. -/
def get_network_conditions (exec : ChromeExec σ) (s : σ) :
    WebDriverResult NetworkConditions × σ :=
  match cmd exec .getNetworkConditions s with
  | (.ok v, s') => (convert_json (v.index "value"), s')
  | (.error e, s') => (.error e, s')

/-- `ChromeDevTools::set_network_conditions`. -/
def set_network_conditions (exec : ChromeExec σ) (conditions : NetworkConditions)
    (s : σ) : WebDriverResult Unit × σ :=
  match cmd exec (.setNetworkConditions conditions) s with
  | (.ok _, s') => (.ok (), s')
  | (.error e, s') => (.error e, s')

/-- `ChromeDevTools::execute_cdp_with_params`. -/
def execute_cdp_with_params (exec : ChromeExec σ) (c : String) (cmd_args : Json)
    (s : σ) : WebDriverResult Json × σ :=
  match cmd exec (.executeCdpCommand c cmd_args) s with
  | (.ok v, s') => (.ok (v.index "value"), s')
  | (.error e, s') => (.error e, s')

/-- `ChromeDevTools::execute_cdp`: delegates to `execute_cdp_with_params`
with the empty JSON object. -/
def execute_cdp (exec : ChromeExec σ) (c : String) (s : σ) :
    WebDriverResult Json × σ :=
  execute_cdp_with_params exec c (Json.obj []) s

/-- `ChromeDevTools::get_sinks`. -/
def get_sinks (exec : ChromeExec σ) (s : σ) : WebDriverResult Json × σ :=
  match cmd exec .getSinks s with
  | (.ok v, s') => (.ok (v.index "value"), s')
  | (.error e, s') => (.error e, s')

/-- `ChromeDevTools::get_issue_message`. -/
def get_issue_message (exec : ChromeExec σ) (s : σ) : WebDriverResult Json × σ :=
  match cmd exec .getIssueMessage s with
  | (.ok v, s') => (.ok (v.index "value"), s')
  | (.error e, s') => (.error e, s')

/-- `ChromeDevTools::set_sink_to_use`. -/
def set_sink_to_use (exec : ChromeExec σ) (sink_name : String) (s : σ) :
    WebDriverResult Unit × σ :=
  match cmd exec (.setSinkToUse sink_name) s with
  | (.ok _, s') => (.ok (), s')
  | (.error e, s') => (.error e, s')

/-- `ChromeDevTools::start_tab_mirroring`. -/
def start_tab_mirroring (exec : ChromeExec σ) (sink_name : String) (s : σ) :
    WebDriverResult Unit × σ :=
  match cmd exec (.startTabMirroring sink_name) s with
  | (.ok _, s') => (.ok (), s')
  | (.error e, s') => (.error e, s')

/-- `ChromeDevTools::stop_casting`. -/
def stop_casting (exec : ChromeExec σ) (sink_name : String) (s : σ) :
    WebDriverResult Unit × σ :=
  match cmd exec (.stopCasting sink_name) s with
  | (.ok _, s') => (.ok (), s')
  | (.error e, s') => (.error e, s')

end ChromeDevTools

/-- An executor that answers with `respond` and appends every issued
command to a trace, so the commands an operation sends are observable. -/
def traceExec (respond : ChromeCommand → WebDriverResult Json) :
    ChromeExec (List ChromeCommand) :=
  fun c trace => (respond c, trace ++ [c])

/-- An executor that answers with `respond` and counts the commands
issued through it. -/
def countExec (respond : ChromeCommand → Nat → WebDriverResult Json) :
    ChromeExec Nat :=
  fun c n => (respond c n, n + 1)

/-- The core command variants used by `src/webdriver.rs` (the full
`Command` enum lives outside the given sources; `deleteSession` is the
one variant the driver constructs, and `otherCommand` stands for every
remaining variant of the closed set, none of which is a delete-session
command). -/
inductive Command where
  | deleteSession : Command
  | otherCommand (name : String) : Command
deriving DecidableEq

/-- Modelled from the spec: the core `Session.execute` choke point
(section 4.2) for core commands, as an executor over an explicit
fake-transport state. -/
abbrev CoreExec (σ : Type) := Command → σ → WebDriverResult Json × σ

/-- The driver-relevant fields of `WebDriverSession`: the session id and
the request timeout (milliseconds). -/
structure WebDriverSession where
  session_id : String
  request_timeout_ms : Nat
deriving DecidableEq

/-- `GenericWebDriver`: a session, the negotiated capabilities snapshot
taken at construction, and the `quit_on_drop` flag. -/
structure GenericWebDriver where
  session : WebDriverSession
  capabilities : Json
  quit_on_drop : Bool

/-- Modelled from the spec: `DesiredCapabilities` wraps a JSON
capabilities document as an immutable snapshot (spec section 3). -/
structure DesiredCapabilities where
  caps : Json

/-- `GenericWebDriver::capabilities`: returns a clone of the negotiated
capabilities wrapped in `DesiredCapabilities`. -/
def GenericWebDriver.capabilitiesMethod (d : GenericWebDriver) :
    DesiredCapabilities :=
  { caps := d.capabilities }

/-- `GenericWebDriver::set_request_timeout`: delegates to
`WebDriverSession::set_request_timeout`. The session method is not among
the given sources; modelled from the spec (section 4.4): it mutates the
session's transport timeout for subsequent requests and nothing else. -/
def GenericWebDriver.set_request_timeout (d : GenericWebDriver) (timeout : Nat) :
    WebDriverResult Unit × GenericWebDriver :=
  (.ok (), { d with session := { d.session with request_timeout_ms := timeout } })

/-- `Drop for GenericWebDriver` (`webdriver.rs` lines 126-138): if
`quit_on_drop` is set and the session id is non-empty, issue
`Command::DeleteSession`; any failure is logged and swallowed, so the
drop glue returns only the successor transport state. -/
def GenericWebDriver.dropRun (exec : CoreExec σ) (d : GenericWebDriver)
    (s : σ) : σ :=
  if d.quit_on_drop && !d.session.session_id.isEmpty then
    (exec Command.deleteSession s).2
  else
    s

/-- `GenericWebDriver::quit` (`webdriver.rs` lines 92-96), including the
drop glue Rust runs on the consumed `self` as `quit` returns: issue
`Command::DeleteSession`; on success clear `quit_on_drop` and return
`Ok(())` (so the drop glue sends nothing); on failure propagate the
error via `?` — `quit_on_drop` is still set when the drop glue runs. -/
def GenericWebDriver.quit (exec : CoreExec σ) (d : GenericWebDriver)
    (s : σ) : WebDriverResult Unit × σ :=
  match exec Command.deleteSession s with
  | (.ok _, s1) =>
      (.ok (), GenericWebDriver.dropRun exec { d with quit_on_drop := false } s1)
  | (.error e, s1) =>
      (.error e, GenericWebDriver.dropRun exec d s1)

/-- Commands a caller can run against a live driver between construction
and teardown: execute a command through the session (a shared borrow, so
driver fields cannot change), or set the request timeout. -/
inductive DriverOp where
  | execCmd (c : Command) : DriverOp
  | setRequestTimeout (timeout : Nat) : DriverOp

/-- One driver operation: command execution touches only the transport
state; `set_request_timeout` touches only the driver. -/
def runOp (exec : CoreExec σ) : DriverOp → GenericWebDriver → σ →
    GenericWebDriver × σ
  | .execCmd c, d, s => (d, (exec c s).2)
  | .setRequestTimeout t, d, s => ((d.set_request_timeout t).2, s)

/-- A sequence of driver operations, run left to right. -/
def runOps (exec : CoreExec σ) : List DriverOp → GenericWebDriver → σ →
    GenericWebDriver × σ
  | [], d, s => (d, s)
  | op :: rest, d, s =>
      let (d', s') := runOp exec op d s
      runOps exec rest d' s'

/-- A core executor that answers with `respond` and counts how many
delete-session commands were issued through it. -/
def deleteCountExec (respond : Command → Nat → WebDriverResult Json) :
    CoreExec Nat :=
  fun c n =>
    (respond c n, match c with | Command.deleteSession => n + 1 | _ => n)

/-- The fake transport used for the set/get round-trip: it stores the
conditions most recently set and reports them back, serialized, to a
subsequent get command. -/
def fakeNetworkTransport : ChromeExec (Option NetworkConditions) :=
  fun c st =>
    match c, st with
    | .setNetworkConditions conditions, _ => (.ok Json.null, some conditions)
    | .getNetworkConditions, some conditions =>
        (.ok (Json.obj [("value", conditions.toJson)]), some conditions)
    | .getNetworkConditions, none =>
        (.error (.transportError "no conditions set"), none)
    | _, st => (.ok Json.null, st)

/-- Serialization of `NetworkConditions` round-trips through decoding. -/
theorem convert_json_toJson (c : NetworkConditions) :
    convert_json c.toJson = .ok c := rfl

/-- C5: `execute_cdp(cmd)` issues the generic-passthrough command variant
carrying the command name `cmd` and the empty JSON object as its body
(observed on the command trace), and is the same function as
`execute_cdp_with_params(cmd, json!(\x7b\x7d))`. -/
theorem execute_cdp_empty_body
    (respond : ChromeCommand → WebDriverResult Json) (c : String)
    (trace : List ChromeCommand) :
    (ChromeDevTools.execute_cdp (traceExec respond) c trace).2
      = trace ++ [ChromeCommand.executeCdpCommand c (Json.obj [])]
    ∧ ∀ {σ : Type} (exec : ChromeExec σ) (s : σ),
      ChromeDevTools.execute_cdp exec c s
        = ChromeDevTools.execute_cdp_with_params exec c (Json.obj []) s := by
  constructor
  · cases hr : respond (ChromeCommand.executeCdpCommand c (Json.obj [])) <;>
      simp [ChromeDevTools.execute_cdp, ChromeDevTools.execute_cdp_with_params,
        ChromeDevTools.cmd, traceExec, hr]
  · intro σ exec s
    rfl

/-- C6: whenever `Session.execute` succeeds with response `v`,
`execute_cdp_with_params` returns exactly `v["value"]`, unchanged and
undecoded. -/
theorem execute_cdp_with_params_value_field {σ : Type} (exec : ChromeExec σ)
    (c : String) (args : Json) (s s' : σ) (v : Json)
    (h : exec (ChromeCommand.executeCdpCommand c args) s = (.ok v, s')) :
    ChromeDevTools.execute_cdp_with_params exec c args s
      = (.ok (v.index "value"), s') := by
  simp [ChromeDevTools.execute_cdp_with_params, ChromeDevTools.cmd, h]

/-- Witness for C6 at a concrete transport response. -/
theorem execute_cdp_with_params_value_field_witness :
    ChromeDevTools.execute_cdp_with_params
      (fun _ (s : Nat) => (Except.ok (Json.obj [("value", Json.str "99.0")]), s))
      "Browser.getVersion" (Json.obj []) 0
      = (.ok (Json.str "99.0"), 0) := by
  exact execute_cdp_with_params_value_field
    (fun _ (s : Nat) => (Except.ok (Json.obj [("value", Json.str "99.0")]), s))
    "Browser.getVersion" (Json.obj []) 0 0
    (Json.obj [("value", Json.str "99.0")]) rfl

/-- C10: each unit-returning devtools operation issues exactly one command
through `Session.execute` (the call counter advances by exactly one), and
returns `Ok(())` whenever the executed command succeeds, whatever the JSON
response body is. -/
theorem unit_ops_discard_response_single_command
    (respond : ChromeCommand → Nat → WebDriverResult Json)
    (app_id sink_name : String) (conditions : NetworkConditions) (n : Nat) :
    ((ChromeDevTools.launch_app (countExec respond) app_id n).2 = n + 1
      ∧ ∀ v, respond (ChromeCommand.launchApp app_id) n = .ok v →
        (ChromeDevTools.launch_app (countExec respond) app_id n).1 = .ok ())
    ∧ ((ChromeDevTools.set_network_conditions (countExec respond) conditions n).2
          = n + 1
      ∧ ∀ v, respond (ChromeCommand.setNetworkConditions conditions) n = .ok v →
        (ChromeDevTools.set_network_conditions (countExec respond) conditions n).1
          = .ok ())
    ∧ ((ChromeDevTools.set_sink_to_use (countExec respond) sink_name n).2 = n + 1
      ∧ ∀ v, respond (ChromeCommand.setSinkToUse sink_name) n = .ok v →
        (ChromeDevTools.set_sink_to_use (countExec respond) sink_name n).1 = .ok ())
    ∧ ((ChromeDevTools.start_tab_mirroring (countExec respond) sink_name n).2 = n + 1
      ∧ ∀ v, respond (ChromeCommand.startTabMirroring sink_name) n = .ok v →
        (ChromeDevTools.start_tab_mirroring (countExec respond) sink_name n).1
          = .ok ())
    ∧ ((ChromeDevTools.stop_casting (countExec respond) sink_name n).2 = n + 1
      ∧ ∀ v, respond (ChromeCommand.stopCasting sink_name) n = .ok v →
        (ChromeDevTools.stop_casting (countExec respond) sink_name n).1 = .ok ()) := by
  refine ⟨⟨?_, ?_⟩, ⟨?_, ?_⟩, ⟨?_, ?_⟩, ⟨?_, ?_⟩, ⟨?_, ?_⟩⟩
  · cases hr : respond (ChromeCommand.launchApp app_id) n <;>
      simp [ChromeDevTools.launch_app, ChromeDevTools.cmd, countExec, hr]
  · intro v hv
    simp [ChromeDevTools.launch_app, ChromeDevTools.cmd, countExec, hv]
  · cases hr : respond (ChromeCommand.setNetworkConditions conditions) n <;>
      simp [ChromeDevTools.set_network_conditions, ChromeDevTools.cmd, countExec, hr]
  · intro v hv
    simp [ChromeDevTools.set_network_conditions, ChromeDevTools.cmd, countExec, hv]
  · cases hr : respond (ChromeCommand.setSinkToUse sink_name) n <;>
      simp [ChromeDevTools.set_sink_to_use, ChromeDevTools.cmd, countExec, hr]
  · intro v hv
    simp [ChromeDevTools.set_sink_to_use, ChromeDevTools.cmd, countExec, hv]
  · cases hr : respond (ChromeCommand.startTabMirroring sink_name) n <;>
      simp [ChromeDevTools.start_tab_mirroring, ChromeDevTools.cmd, countExec, hr]
  · intro v hv
    simp [ChromeDevTools.start_tab_mirroring, ChromeDevTools.cmd, countExec, hv]
  · cases hr : respond (ChromeCommand.stopCasting sink_name) n <;>
      simp [ChromeDevTools.stop_casting, ChromeDevTools.cmd, countExec, hr]
  · intro v hv
    simp [ChromeDevTools.stop_casting, ChromeDevTools.cmd, countExec, hv]

/-- Witness for C10 at a concrete transport (an arbitrary success body). -/
theorem unit_ops_discard_response_single_command_witness :
    (ChromeDevTools.launch_app
        (countExec (fun _ _ => Except.ok (Json.str "ignored"))) "app1" 0).2 = 1
    ∧ (ChromeDevTools.launch_app
        (countExec (fun _ _ => Except.ok (Json.str "ignored"))) "app1" 0).1 = .ok ()
    ∧ (ChromeDevTools.stop_casting
        (countExec (fun _ _ => Except.ok (Json.str "ignored"))) "sink1" 0).2 = 1
    ∧ (ChromeDevTools.stop_casting
        (countExec (fun _ _ => Except.ok (Json.str "ignored"))) "sink1" 0).1
        = .ok () := by
  have h := unit_ops_discard_response_single_command
    (fun _ _ => Except.ok (Json.str "ignored")) "app1" "sink1"
    { offline := false, latency := 0, download_throughput := 0,
      upload_throughput := 0 } 0
  exact ⟨h.1.1, h.1.2 (Json.str "ignored") rfl, h.2.2.2.2.1,
    h.2.2.2.2.2 (Json.str "ignored") rfl⟩

/-- Counterexample to C4: a generic passthrough response that is valid
JSON but has no "value" field makes `execute_cdp_with_params` return a
success (`Ok(Json.null)`, since indexing a missing key yields null), not
a `DecodeError`. -/
theorem passthrough_missing_value_not_decode_error :
    ChromeDevTools.execute_cdp_with_params
        (fun _ (s : Nat) => (Except.ok (Json.obj [("sessionId", Json.str "f30894")]), s))
        "Browser.getVersion" (Json.obj []) 0
      = (.ok Json.null, 0)
    ∧ ¬ ∃ msg, (ChromeDevTools.execute_cdp_with_params
        (fun _ (s : Nat) => (Except.ok (Json.obj [("sessionId", Json.str "f30894")]), s))
        "Browser.getVersion" (Json.obj []) 0).1
      = Except.error (WebDriverError.decodeError msg) := by
  refine ⟨rfl, ?_⟩
  rintro ⟨msg, h⟩
  have h2 : (Except.ok Json.null : WebDriverResult Json)
      = Except.error (WebDriverError.decodeError msg) := h
  exact Except.noConfusion h2

/-- Decoding `NetworkConditions` fails with a `DecodeError` as soon as
any one of the four expected fields is missing or of the wrong shape. -/
theorem convert_json_missing_field (v : Json)
    (h : (v.index "offline").asBool = none
      ∨ (v.index "latency").asInt = none
      ∨ (v.index "download_throughput").asInt = none
      ∨ (v.index "upload_throughput").asInt = none) :
    convert_json v = .error (.decodeError "failed to decode NetworkConditions") := by
  rcases h with h | h | h | h <;>
    cases hb : (v.index "offline").asBool <;>
    cases hl : (v.index "latency").asInt <;>
    cases hd : (v.index "download_throughput").asInt <;>
    cases hu : (v.index "upload_throughput").asInt <;>
    simp_all [convert_json]

/-- C4 amended: a typed decoding operation (`get_network_conditions`)
fails with a `DecodeError` — a kind distinct from `ProtocolError` — when
any expected field of its response's "value" object is missing or
ill-shaped; the generic passthrough operations
(`execute_cdp_with_params` and `get_sinks`) perform no local validation
of the body and succeed on any JSON response. -/
theorem decode_error_distinct_from_protocol {σ : Type} (exec : ChromeExec σ)
    (s s' : σ) (resp : Json)
    (hresp : exec ChromeCommand.getNetworkConditions s = (.ok resp, s'))
    (hmiss : ((resp.index "value").index "offline").asBool = none
      ∨ ((resp.index "value").index "latency").asInt = none
      ∨ ((resp.index "value").index "download_throughput").asInt = none
      ∨ ((resp.index "value").index "upload_throughput").asInt = none) :
    (∃ msg, ChromeDevTools.get_network_conditions exec s
        = (.error (.decodeError msg), s')
      ∧ ∀ code m, WebDriverError.decodeError msg ≠ WebDriverError.protocolError code m)
    ∧ (∀ {σ2 : Type} (exec2 : ChromeExec σ2) (t t' : σ2) (c : String) (args resp2 : Json),
      exec2 (ChromeCommand.executeCdpCommand c args) t = (.ok resp2, t') →
      ∃ w, ChromeDevTools.execute_cdp_with_params exec2 c args t = (.ok w, t'))
    ∧ ∀ {σ3 : Type} (exec3 : ChromeExec σ3) (r r' : σ3) (resp3 : Json),
      exec3 ChromeCommand.getSinks r = (.ok resp3, r') →
      ∃ w, ChromeDevTools.get_sinks exec3 r = (.ok w, r') := by
  refine ⟨⟨"failed to decode NetworkConditions", ?_, ?_⟩, ?_, ?_⟩
  · simp [ChromeDevTools.get_network_conditions, ChromeDevTools.cmd, hresp,
      convert_json_missing_field (resp.index "value") hmiss]
  · intro code m h
    exact WebDriverError.noConfusion h
  · intro σ2 exec2 t t' c args resp2 h2
    exact ⟨resp2.index "value", by
      simp [ChromeDevTools.execute_cdp_with_params, ChromeDevTools.cmd, h2]⟩
  · intro σ3 exec3 r r' resp3 h3
    exact ⟨resp3.index "value", by
      simp [ChromeDevTools.get_sinks, ChromeDevTools.cmd, h3]⟩

/-- Witness for the amended C4 at a concrete transport response whose
"value" object lacks the expected fields. -/
theorem decode_error_distinct_from_protocol_witness :
    ∃ msg, ChromeDevTools.get_network_conditions
        (fun _ (s : Nat) => (Except.ok (Json.obj [("value", Json.obj [])]), s)) 0
      = (.error (.decodeError msg), 0) := by
  have h := decode_error_distinct_from_protocol
    (fun _ (s : Nat) => (Except.ok (Json.obj [("value", Json.obj [])]), s))
    0 0 (Json.obj [("value", Json.obj [])]) rfl (Or.inl rfl)
  obtain ⟨msg, h1, _⟩ := h.1
  exact ⟨msg, h1⟩

/-- C7: when the transport answers the get-network-conditions command
with a response whose "value" field is a well-formed network-conditions
object, `get_network_conditions` returns a `NetworkConditions` with
exactly those field values. -/
theorem get_network_conditions_decodes {σ : Type} (exec : ChromeExec σ)
    (s s' : σ) (resp : Json) (o : Bool) (l d u : Int)
    (hresp : exec ChromeCommand.getNetworkConditions s = (.ok resp, s'))
    (hval : resp.index "value" = Json.obj
        [("download_throughput", Json.num d), ("upload_throughput", Json.num u),
         ("latency", Json.num l), ("offline", Json.bool o)]) :
    ChromeDevTools.get_network_conditions exec s
      = (.ok { offline := o, latency := l, download_throughput := d,
               upload_throughput := u }, s') := by
  simp only [ChromeDevTools.get_network_conditions, ChromeDevTools.cmd, hresp]
  rw [hval]
  exact rfl

/-- Witness for C7 at the spec's example response: download throughput 20,
upload throughput 10, latency 0, offline false. -/
theorem get_network_conditions_decodes_witness :
    ChromeDevTools.get_network_conditions
      (fun _ (s : Nat) => (Except.ok (Json.obj [("value", Json.obj
        [("download_throughput", Json.num 20), ("upload_throughput", Json.num 10),
         ("latency", Json.num 0), ("offline", Json.bool false)])]), s)) 0
      = (.ok { offline := false, latency := 0, download_throughput := 20,
               upload_throughput := 10 }, 0) := by
  exact get_network_conditions_decodes
    (fun _ (s : Nat) => (Except.ok (Json.obj [("value", Json.obj
      [("download_throughput", Json.num 20), ("upload_throughput", Json.num 10),
       ("latency", Json.num 0), ("offline", Json.bool false)])]), s))
    0 0 _ false 0 20 10 rfl rfl

/-- C8: setting network conditions through the storing fake transport and
then getting them round-trips: the get reports exactly the four field
values just set. -/
theorem network_conditions_roundtrip (c : NetworkConditions)
    (st : Option NetworkConditions) :
    (ChromeDevTools.set_network_conditions fakeNetworkTransport c st).1 = .ok ()
    ∧ ChromeDevTools.get_network_conditions fakeNetworkTransport
        (ChromeDevTools.set_network_conditions fakeNetworkTransport c st).2
      = (.ok c, some c) := by
  exact ⟨rfl, rfl⟩

/-- Counterexample to C1: when the delete-session command fails, `quit`
returns the error via the early-return before `quit_on_drop` is cleared,
so the drop glue running on the consumed driver attempts the
delete-session command a second time — the counter reaches 2, where the
claim requires the end-of-scope teardown to attempt nothing further. -/
theorem quit_failure_second_delete :
    GenericWebDriver.quit
      (deleteCountExec (fun _ _ => .error (.transportError "connection refused")))
      { session := { session_id := "abc123", request_timeout_ms := 30000 },
        capabilities := Json.obj [], quit_on_drop := true } 0
      = (.error (.transportError "connection refused"), 2) := by
  rfl

/-- C1 amended: `quit` consumes the driver and sends the delete-session
command; on success it disables automatic teardown before returning, so
the end-of-scope teardown sends nothing further (exactly one command in
total); on failure the error is returned to the caller, but automatic
teardown is NOT disabled, so the end-of-scope teardown running on the
consumed driver attempts the delete-session command once more (two
commands in total), swallowing that second outcome. -/
theorem quit_teardown_disable_on_success
    (respond : Command → Nat → WebDriverResult Json) (d : GenericWebDriver)
    (n : Nat) (hq : d.quit_on_drop = true) (hid : d.session.session_id ≠ "") :
    (∀ v, respond Command.deleteSession n = .ok v →
      GenericWebDriver.quit (deleteCountExec respond) d n = (.ok (), n + 1))
    ∧ ∀ e, respond Command.deleteSession n = .error e →
      GenericWebDriver.quit (deleteCountExec respond) d n = (.error e, n + 2) := by
  have hie : d.session.session_id.isEmpty = false := by
    cases hie2 : d.session.session_id.isEmpty
    · rfl
    · exact absurd ((String.isEmpty_iff _).mp hie2) hid
  constructor
  · intro v hv
    simp [GenericWebDriver.quit, GenericWebDriver.dropRun, deleteCountExec, hv]
  · intro e he
    simp [GenericWebDriver.quit, GenericWebDriver.dropRun, deleteCountExec, he,
      hq, hie]

/-- Witness for the amended C1: a successful `quit` issues exactly one
delete-session command and returns `Ok(())`. -/
theorem quit_teardown_disable_on_success_witness :
    GenericWebDriver.quit (deleteCountExec (fun _ _ => Except.ok Json.null))
      { session := { session_id := "abc123", request_timeout_ms := 30000 },
        capabilities := Json.obj [], quit_on_drop := true } 0
      = (.ok (), 1) := by
  exact (quit_teardown_disable_on_success (fun _ _ => Except.ok Json.null)
    { session := { session_id := "abc123", request_timeout_ms := 30000 },
      capabilities := Json.obj [], quit_on_drop := true } 0 rfl (by decide)).1
    Json.null rfl

/-- Driver operations that never execute a delete-session command leave
the delete-session call counter unchanged. -/
theorem runOps_deleteCount_preserved
    (respond : Command → Nat → WebDriverResult Json) :
    ∀ (ops : List DriverOp) (d : GenericWebDriver) (n : Nat),
      (∀ c, DriverOp.execCmd c ∈ ops → c ≠ Command.deleteSession) →
      (runOps (deleteCountExec respond) ops d n).2 = n := by
  intro ops
  induction ops with
  | nil => intro d n _; rfl
  | cons op rest ih =>
    intro d n hops
    cases op with
    | execCmd c =>
      have hc : c ≠ Command.deleteSession := hops c (List.mem_cons_self _ _)
      cases c with
      | deleteSession => exact absurd rfl hc
      | otherCommand name =>
        simpa [runOps, runOp, deleteCountExec] using
          ih d n (fun c2 hm => hops c2 (List.mem_cons_of_mem _ hm))
    | setRequestTimeout t =>
      simpa [runOps, runOp] using
        ih ((d.set_request_timeout t).2) n
          (fun c hm => hops c (List.mem_cons_of_mem _ hm))

/-- C2: over a whole driver lifetime — construction (no delete-session),
any sequence of non-teardown operations, then a successful `quit`
(including the drop glue on the consumed driver) — exactly one
delete-session command is issued. -/
theorem single_delete_session_lifetime
    (respond : Command → Nat → WebDriverResult Json) (ops : List DriverOp)
    (d : GenericWebDriver)
    (hops : ∀ c, DriverOp.execCmd c ∈ ops → c ≠ Command.deleteSession)
    (hquit : (GenericWebDriver.quit (deleteCountExec respond)
        (runOps (deleteCountExec respond) ops d 0).1
        (runOps (deleteCountExec respond) ops d 0).2).1 = .ok ()) :
    (GenericWebDriver.quit (deleteCountExec respond)
        (runOps (deleteCountExec respond) ops d 0).1
        (runOps (deleteCountExec respond) ops d 0).2).2 = 1 := by
  have h0 := runOps_deleteCount_preserved respond ops d 0 hops
  rw [h0] at hquit ⊢
  cases hr : respond Command.deleteSession 0 with
  | ok v =>
    simp [GenericWebDriver.quit, GenericWebDriver.dropRun, deleteCountExec, hr]
  | error e =>
    exfalso
    revert hquit
    simp [GenericWebDriver.quit, deleteCountExec, hr]

/-- Witness for C2: one ordinary command, then a successful `quit`; the
delete-session counter ends at exactly 1. -/
theorem single_delete_session_lifetime_witness :
    (GenericWebDriver.quit (deleteCountExec (fun _ _ => Except.ok Json.null))
        (runOps (deleteCountExec (fun _ _ => Except.ok Json.null))
          [DriverOp.execCmd (Command.otherCommand "GetTitle")]
          { session := { session_id := "abc123", request_timeout_ms := 30000 },
            capabilities := Json.obj [], quit_on_drop := true } 0).1
        (runOps (deleteCountExec (fun _ _ => Except.ok Json.null))
          [DriverOp.execCmd (Command.otherCommand "GetTitle")]
          { session := { session_id := "abc123", request_timeout_ms := 30000 },
            capabilities := Json.obj [], quit_on_drop := true } 0).2).2 = 1 := by
  refine single_delete_session_lifetime (fun _ _ => Except.ok Json.null)
    [DriverOp.execCmd (Command.otherCommand "GetTitle")]
    { session := { session_id := "abc123", request_timeout_ms := 30000 },
      capabilities := Json.obj [], quit_on_drop := true } ?_ rfl
  intro c hc
  simp only [List.mem_singleton, DriverOp.execCmd.injEq] at hc
  subst hc
  decide

/-- C3: the end-of-scope teardown fires exactly when `quit_on_drop` is
still set and the session id is non-empty: an empty session id or a
cleared flag means no delete-session attempt (the transport state is
untouched); when it fires, it issues one delete-session command and
returns only the successor state — the command's failure, if any, has no
channel through which to surface. -/
theorem drop_teardown_guard {σ : Type} (exec : CoreExec σ)
    (d : GenericWebDriver) (s : σ) :
    (d.session.session_id = "" → GenericWebDriver.dropRun exec d s = s)
    ∧ (d.quit_on_drop = false → GenericWebDriver.dropRun exec d s = s)
    ∧ (d.quit_on_drop = true → d.session.session_id ≠ "" →
        GenericWebDriver.dropRun exec d s = (exec Command.deleteSession s).2) := by
  refine ⟨?_, ?_, ?_⟩
  · intro h
    have hie : (d.session.session_id).isEmpty = true := by rw [h]; rfl
    simp [GenericWebDriver.dropRun, hie]
  · intro h
    simp [GenericWebDriver.dropRun, h]
  · intro hq hid
    have hie : d.session.session_id.isEmpty = false := by
      cases hie2 : d.session.session_id.isEmpty
      · rfl
      · exact absurd ((String.isEmpty_iff _).mp hie2) hid
    simp [GenericWebDriver.dropRun, hq, hie]

/-- Witness for C3: a driver whose session id is the empty string leaves
the delete-session counter untouched on drop. -/
theorem drop_teardown_guard_witness :
    GenericWebDriver.dropRun (deleteCountExec (fun _ _ => Except.ok Json.null))
      { session := { session_id := "", request_timeout_ms := 30000 },
        capabilities := Json.obj [], quit_on_drop := true } 0 = 0 := by
  exact (drop_teardown_guard (deleteCountExec (fun _ _ => Except.ok Json.null))
    { session := { session_id := "", request_timeout_ms := 30000 },
      capabilities := Json.obj [], quit_on_drop := true } 0).1 rfl

/-- Running driver operations never changes the capabilities snapshot,
the session id, or the teardown flag. -/
theorem runOps_preserves_fields {σ : Type} (exec : CoreExec σ) :
    ∀ (ops : List DriverOp) (d : GenericWebDriver) (s : σ),
      (runOps exec ops d s).1.capabilities = d.capabilities
      ∧ (runOps exec ops d s).1.session.session_id = d.session.session_id
      ∧ (runOps exec ops d s).1.quit_on_drop = d.quit_on_drop := by
  intro ops
  induction ops with
  | nil => intro d s; exact ⟨rfl, rfl, rfl⟩
  | cons op rest ih =>
    intro d s
    cases op with
    | execCmd c =>
      simpa [runOps, runOp] using ih d ((exec c s).2)
    | setRequestTimeout t =>
      simpa [runOps, runOp, GenericWebDriver.set_request_timeout] using
        ih ((d.set_request_timeout t).2) s

/-- C9: across every sequence of command executions and timeout changes,
`capabilities()` keeps returning the snapshot taken at construction and
the session id is unchanged; `set_request_timeout` succeeds and changes
only the session's request timeout. -/
theorem capabilities_immutable_under_ops {σ : Type} (exec : CoreExec σ)
    (ops : List DriverOp) (d : GenericWebDriver) (s : σ) (t : Nat) :
    ((GenericWebDriver.capabilitiesMethod (runOps exec ops d s).1).caps
        = (GenericWebDriver.capabilitiesMethod d).caps
      ∧ (runOps exec ops d s).1.session.session_id = d.session.session_id)
    ∧ ((d.set_request_timeout t).1 = .ok ()
      ∧ (d.set_request_timeout t).2.capabilities = d.capabilities
      ∧ (d.set_request_timeout t).2.session.session_id = d.session.session_id
      ∧ (d.set_request_timeout t).2.quit_on_drop = d.quit_on_drop
      ∧ (d.set_request_timeout t).2.session.request_timeout_ms = t) := by
  refine ⟨⟨?_, ?_⟩, rfl, rfl, rfl, rfl, rfl⟩
  · exact (runOps_preserves_fields exec ops d s).1
  · exact (runOps_preserves_fields exec ops d s).2.1
